import Mathlib

/-!
Verification of the CC-Backend session core (src/routes/auth.js), the cron
token sweep (src/server.js), the RefreshToken TTL index
(src/models/RefreshToken.js) and the payment-verification route
(src/routes/orderRoutes.js), as a shallow embedding: each Express handler
becomes a pure function from a request and a database state to a response
and a new database state.  Time is a natural number of milliseconds
(`Date.now()`); JWT issued-at times are in seconds, as in the library.
-/

/-- Payload embedded in a signed JWT: `{ id, phone }` as built in
`src/routes/auth.js` for both access and refresh tokens. -/
structure TokenPayload where
  id : Nat
  phone : String
  deriving DecidableEq

/-- Model of a token produced by `jwt.sign(payload, secret, { expiresIn })`:
the signing is deterministic, so a token is fully described by its payload,
the secret it was signed with, its issued-at time in seconds and its
lifetime in seconds. -/
structure Jwt where
  payload : TokenPayload
  secret : String
  iat : Nat
  lifeSecs : Nat
  deriving DecidableEq

/-- `jwt.sign(p, secret, { expiresIn: lifeSecs })` executed at `nowMs`
milliseconds: `iat` is the current time in whole seconds. -/
def jwtSign (p : TokenPayload) (secret : String) (lifeSecs : Nat) (nowMs : Nat) : Jwt :=
  { payload := p, secret := secret, iat := nowMs / 1000, lifeSecs := lifeSecs }

/-- `jwt.verify(t, secret)` executed at `nowMs`: succeeds returning the
payload iff the token carries the same secret and its expiry second
`iat + lifeSecs` is still in the future. -/
def jwtVerify (t : Jwt) (secret : String) (nowMs : Nat) : Option TokenPayload :=
  if t.secret = secret ∧ nowMs / 1000 < t.iat + t.lifeSecs then some t.payload else none

/-- One document of the `RefreshToken` collection
(src/models/RefreshToken.js): owning user, the token itself, expiry
timestamp in milliseconds, and the revocation flag (default `false`). -/
structure TokenRecord where
  userId : Nat
  token : Jwt
  expiresAt : Nat
  revoked : Bool
  deriving DecidableEq

/-- One document of the `User` collection as used by `src/routes/auth.js`:
`_id`, the registration fields, and the bcrypt password hash. -/
structure UserRecord where
  id : Nat
  name : String
  email : String
  phone : String
  passwordHash : String
  tower : String
  flat : String
  deriving DecidableEq

/-- The database state touched by the session core: the user collection
(with the id the store would assign to the next inserted user) and the
refresh-token ledger. -/
structure Db where
  users : List UserRecord
  nextUserId : Nat
  tokens : List TokenRecord
  deriving DecidableEq

/-- An HTTP response as the handlers build it: status code, the JSON
message or error string, plus the access token in the body, the
`refreshToken` cookie set with its max-age, and whether the cookie was
cleared. -/
structure Resp where
  status : Nat
  body : String
  accessToken : Option Jwt := none
  setCookie : Option (Jwt × Nat) := none
  clearCookie : Bool := false
  deriving DecidableEq

/-- JavaScript truthiness of an optional string request field: absent or
empty is falsy. -/
def truthy : Option String → Bool
  | none => false
  | some s => s != ""

/-- Model of `bcrypt.hash(password, saltRounds)`: a deterministic one-way
hash (the real salt is abstracted away; registration uses cost 10). -/
def bcryptHash (saltRounds : Nat) (password : String) : String :=
  "bcrypt." ++ toString saltRounds ++ "." ++ password

/-- Model of `bcrypt.compare(password, hash)` against hashes produced at
registration (cost 10). -/
def bcryptCompare (password hash : String) : Bool :=
  hash == bcryptHash 10 password

/-- `User.findOne({ phone })`. -/
def findUserByPhone (db : Db) (phone : String) : Option UserRecord :=
  db.users.find? (fun u => u.phone == phone)

/-- `User.findOne({ email })`. -/
def findUserByEmail (db : Db) (email : String) : Option UserRecord :=
  db.users.find? (fun u => u.email == email)

/-- `User.findById(id)`. -/
def findUserById (db : Db) (uid : Nat) : Option UserRecord :=
  db.users.find? (fun u => u.id == uid)

/-- `RefreshToken.findOne({ token, revoked: false })`. -/
def findActiveToken (db : Db) (t : Jwt) : Option TokenRecord :=
  db.tokens.find? (fun r => r.token == t && r.revoked == false)

def sevenDaysMs : Nat := 7 * 24 * 60 * 60 * 1000

def sevenDaysSecs : Nat := 7 * 24 * 60 * 60

/-- `POST /refresh-token` (src/routes/auth.js).  Missing cookie rejects
with 401; a token with no non-revoked ledger record rejects with 403; a
ledger-active token whose `jwt.verify` throws (bad secret or expired) is
caught by the surrounding try/catch, which answers 500.  On success all
non-revoked tokens of the user are revoked in one `updateMany`, a 1-minute
access token and a 7-day refresh token are signed, the new refresh token
is persisted and set as a cookie with a 7-day max-age. -/
def refreshTokenHandler (accessSecret refreshSecret : String) (db : Db)
    (cookie : Option Jwt) (nowMs : Nat) : Resp × Db :=
  match cookie with
  | none => ({ status := 401, body := "Refresh token missing." }, db)
  | some token =>
    match findActiveToken db token with
    | none => ({ status := 403, body := "Invalid refresh token." }, db)
    | some _ =>
      match jwtVerify token refreshSecret nowMs with
      | none => ({ status := 500, body := "Server error during token refresh." }, db)
      | some user =>
        let revokedDb : Db :=
          { db with tokens := db.tokens.map (fun r =>
              if r.userId == user.id && r.revoked == false then
                { r with revoked := true } else r) }
        let newPayload : TokenPayload := { id := user.id, phone := user.phone }
        let accessTok := jwtSign newPayload accessSecret 60 nowMs
        let newRefreshTok := jwtSign newPayload refreshSecret sevenDaysSecs nowMs
        let outDb : Db :=
          { revokedDb with tokens := revokedDb.tokens ++
              [{ userId := user.id, token := newRefreshTok,
                 expiresAt := nowMs + sevenDaysMs, revoked := false }] }
        ({ status := 200, body := "", accessToken := some accessTok,
           setCookie := some (newRefreshTok, sevenDaysMs) }, outDb)

/-- The `Authorization` header: a scheme word and, when the header has a
second word, the bearer credential. -/
structure AuthHeader where
  scheme : String
  cred : Option Jwt
  deriving DecidableEq

/-- `authHeader && authHeader.split(" ")[1]`: the token part of the header,
absent when the header is absent or has no second word. -/
def extractBearer (h : Option AuthHeader) : Option Jwt :=
  h.bind (fun a => a.cred)

/-- The `authenticateToken` middleware (src/routes/auth.js): 401 when no
token is presented, 403 when `jwt.verify` rejects it, otherwise the
verified payload becomes `req.user`.  It consults no database. -/
def authenticateToken (accessSecret : String) (h : Option AuthHeader) (nowMs : Nat) :
    Except Resp TokenPayload :=
  match extractBearer h with
  | none => Except.error { status := 401, body := "Access token missing." }
  | some t =>
    match jwtVerify t accessSecret nowMs with
    | none => Except.error { status := 403, body := "Invalid or expired access token." }
    | some p => Except.ok p

/-- `GET /me` (src/routes/auth.js): the gate, then a profile lookup. -/
def meHandler (accessSecret : String) (db : Db) (h : Option AuthHeader) (nowMs : Nat) : Resp :=
  match authenticateToken accessSecret h nowMs with
  | Except.error r => r
  | Except.ok p =>
    match findUserById db p.id with
    | none => { status := 404, body := "User not found." }
    | some _ => { status := 200, body := "user" }

def isNonSpace (c : Char) : Bool := !c.isWhitespace

/-- Model of `/\S+@\S+\.\S+/.test(email)`: somewhere in the string there is
a non-space character, directly followed by `@`, one or more non-space
characters, `.`, and a non-space character. -/
def emailRegexTest (s : String) : Bool :=
  let cs := s.toList
  let n := cs.length
  (List.range n).any (fun i =>
    cs.getD i ' ' == '@' && decide (0 < i) && isNonSpace (cs.getD (i - 1) ' ') &&
    (List.range n).any (fun j =>
      decide (i + 1 < j) && cs.getD j ' ' == '.' && decide (j + 1 < n) &&
      isNonSpace (cs.getD (j + 1) ' ') &&
      (List.range (j - i - 1)).all (fun k => isNonSpace (cs.getD (i + 1 + k) ' '))))

/-- The body of `POST /register`. -/
structure RegisterBody where
  name : Option String
  email : Option String
  phone : Option String
  password : Option String
  tower : Option String
  flat : Option String
  deriving DecidableEq

/-- `POST /register` (src/routes/auth.js): field presence, email shape and
password length are validated first (400); then phone uniqueness, then
email uniqueness (409 naming the field); on success the user is persisted
with the hashed password (201). -/
def registerHandler (db : Db) (b : RegisterBody) : Resp × Db :=
  if !(truthy b.name && truthy b.email && truthy b.phone &&
       truthy b.password && truthy b.tower && truthy b.flat) then
    ({ status := 400, body := "All fields are required." }, db)
  else if !emailRegexTest (b.email.getD "") then
    ({ status := 400, body := "Invalid email address." }, db)
  else if (b.password.getD "").length < 8 then
    ({ status := 400, body := "Password must be at least 8 characters." }, db)
  else
    match findUserByPhone db (b.phone.getD "") with
    | some _ => ({ status := 409, body := "User with this phone already exists." }, db)
    | none =>
      match findUserByEmail db (b.email.getD "") with
      | some _ => ({ status := 409, body := "User with this email already exists." }, db)
      | none =>
        let u : UserRecord :=
          { id := db.nextUserId, name := b.name.getD "", email := b.email.getD "",
            phone := b.phone.getD "", passwordHash := bcryptHash 10 (b.password.getD ""),
            tower := b.tower.getD "", flat := b.flat.getD "" }
        ({ status := 201, body := "User registered successfully." },
         { db with users := db.users ++ [u], nextUserId := db.nextUserId + 1 })

/-- `POST /login` (src/routes/auth.js): missing fields give 400; an unknown
phone and a mismatched password give the same 401 response; empty secrets
throw into the catch (500); on success a 15-minute access token and a
7-day refresh token are signed, the refresh token is persisted with a
7-day expiry and set as a cookie with a 7-day max-age. -/
def loginHandler (accessSecret refreshSecret : String) (db : Db)
    (phone password : Option String) (nowMs : Nat) : Resp × Db :=
  if !(truthy phone && truthy password) then
    ({ status := 400, body := "Phone and password are required." }, db)
  else
    match findUserByPhone db (phone.getD "") with
    | none => ({ status := 401, body := "Invalid phone or password." }, db)
    | some user =>
      if !(bcryptCompare (password.getD "") user.passwordHash) then
        ({ status := 401, body := "Invalid phone or password." }, db)
      else if accessSecret == "" || refreshSecret == "" then
        ({ status := 500, body := "Server error." }, db)
      else
        let payload : TokenPayload := { id := user.id, phone := user.phone }
        let accessTok := jwtSign payload accessSecret (15 * 60) nowMs
        let refreshTok := jwtSign payload refreshSecret sevenDaysSecs nowMs
        let outDb : Db :=
          { db with tokens := db.tokens ++
              [{ userId := user.id, token := refreshTok,
                 expiresAt := nowMs + sevenDaysMs, revoked := false }] }
        ({ status := 200, body := "Login successful.", accessToken := some accessTok,
           setCookie := some (refreshTok, sevenDaysMs) }, outDb)

/-- `RefreshToken.findOneAndUpdate({ token }, { revoked: true })`: mark the
first record holding this token as revoked. -/
def setRevokedFirst : List TokenRecord → Jwt → List TokenRecord
  | [], _ => []
  | r :: rs, t =>
    if r.token == t then { r with revoked := true } :: rs
    else r :: setRevokedFirst rs t

/-- `POST /logout` (src/routes/auth.js): when a cookie is present its first
matching ledger record (if any) is marked revoked; the cookie is cleared
and the call always answers 200. -/
def logoutHandler (db : Db) (cookie : Option Jwt) : Resp × Db :=
  let outDb : Db :=
    match cookie with
    | some t => { db with tokens := setRevokedFirst db.tokens t }
    | none => db
  ({ status := 200, body := "Logged out successfully.", clearCookie := true }, outDb)

/-- The cron sweep (src/server.js): `RefreshToken.deleteMany` of every
record that is revoked or whose `expiresAt` is not after now. -/
def sweepTokens (db : Db) (nowMs : Nat) : Db :=
  { db with tokens := db.tokens.filter (fun r =>
      !(r.revoked || decide (r.expiresAt ≤ nowMs))) }

/-- The store's TTL backstop: the `expireAfterSeconds: 0` index on
`expiresAt` (src/models/RefreshToken.js) removes every record once its
expiry timestamp has passed. -/
def ttlExpire (db : Db) (nowMs : Nat) : Db :=
  { db with tokens := db.tokens.filter (fun r => !(decide (r.expiresAt ≤ nowMs))) }

/-- A sequence of `POST /refresh-token` calls, each presenting the cookie
set by the previous call, at the given timestamps: `none` when some call
does not succeed. -/
def refreshChain (accessSecret refreshSecret : String) :
    List Nat → Db → Jwt → Option (Db × Jwt)
  | [], db, c => some (db, c)
  | t :: ts, db, c =>
    let r := refreshTokenHandler accessSecret refreshSecret db (some c) t
    if r.1.status == 200 then
      match r.1.setCookie with
      | some (c2, _) => refreshChain accessSecret refreshSecret ts r.2 c2
      | none => none
    else none

/-- The number of non-revoked ledger records owned by a user. -/
def countActive (db : Db) (uid : Nat) : Nat :=
  (db.tokens.filter (fun r => r.userId == uid && r.revoked == false)).length

/-- Ledger well-formedness: every record's `userId` field agrees with the
user id embedded in its stored token — true of every record the handlers
create. -/
def ledgerWF (db : Db) : Bool :=
  db.tokens.all (fun r => r.userId == r.token.payload.id)

/-- One document of the `Order` collection, restricted to the fields the
verification route reads and writes. -/
structure OrderRecord where
  id : Nat
  userId : Nat
  paymentStatus : String
  orderStatus : String
  deriving DecidableEq

structure OrderDb where
  orders : List OrderRecord
  deriving DecidableEq

/-- The body of `POST /orders/verify`. -/
structure VerifyBody where
  localOrderId : Option Nat
  razorpayOrderId : Option String
  razorpayPaymentId : Option String
  razorpaySignature : Option String
  deriving DecidableEq

/-- `order.save()` after mutating the document found by id: update the
first record bearing this id. -/
def updateOrderFirst : List OrderRecord → Nat → (OrderRecord → OrderRecord) → List OrderRecord
  | [], _, _ => []
  | o :: os, oid, f =>
    if o.id == oid then f o :: os else o :: updateOrderFirst os oid f

/-- `POST /orders/verify` (src/routes/orderRoutes.js), parametrised by the
HMAC-SHA256 primitive `hmac secret message`.  Missing details give 400; an
unknown order gives 404; a signature mismatch first persists
`paymentStatus = "FAILED"` on the order and then answers 400; a match
persists `paymentStatus = "PAID"` and `orderStatus = "CONFIRMED"` and
answers 200. -/
def verifyPaymentHandler (hmac : String → String → String) (keySecret : String)
    (db : OrderDb) (b : VerifyBody) : Resp × OrderDb :=
  if b.localOrderId.isNone || !truthy b.razorpayOrderId ||
     !truthy b.razorpayPaymentId || !truthy b.razorpaySignature then
    ({ status := 400, body := "Missing payment details" }, db)
  else
    let oid := b.localOrderId.getD 0
    match db.orders.find? (fun o => o.id == oid) with
    | none => ({ status := 404, body := "Order not found" }, db)
    | some _ =>
      let msg := b.razorpayOrderId.getD "" ++ "|" ++ b.razorpayPaymentId.getD ""
      let expected := hmac keySecret msg
      if expected != b.razorpaySignature.getD "" then
        ({ status := 400, body := "Invalid payment signature" },
         { db with orders := (updateOrderFirst db.orders oid
             (fun o => { o with paymentStatus := "FAILED" })) })
      else
        ({ status := 200, body := "Payment verified" },
         { db with orders := (updateOrderFirst db.orders oid
             (fun o => { o with paymentStatus := "PAID", orderStatus := "CONFIRMED" })) })

/-! Concrete fixtures used by witnesses and counterexamples. -/

def sampleUser : UserRecord :=
  { id := 1, name := "n", email := "e@x.y", phone := "123",
    passwordHash := bcryptHash 10 "password1", tower := "t", flat := "f" }

def sampleTok : Jwt :=
  { payload := { id := 1, phone := "123" }, secret := "r", iat := 5, lifeSecs := sevenDaysSecs }

def sampleDb : Db :=
  { users := [sampleUser], nextUserId := 2,
    tokens := [{ userId := 1, token := sampleTok, expiresAt := 10000000, revoked := false }] }

/-- A token whose signed lifetime has already elapsed while its ledger
record is still present and non-revoked. -/
def expiredTok : Jwt :=
  { payload := { id := 1, phone := "123" }, secret := "r", iat := 0, lifeSecs := 1 }

def expiredDb : Db :=
  { users := [], nextUserId := 0,
    tokens := [{ userId := 1, token := expiredTok, expiresAt := 99999999, revoked := false }] }

/-- C3, claimed behavior refuted: a refresh token with a non-revoked Token
Ledger record whose jwt verification fails (it is past its signed expiry)
is answered with status 500, not the claimed 403. -/
theorem refresh_sig_failure_counterexample :
    (refreshTokenHandler "a" "r" expiredDb (some expiredTok) 5000).1.status = 500
    ∧ (refreshTokenHandler "a" "r" expiredDb (some expiredTok) 5000).1.status ≠ 403
    ∧ (refreshTokenHandler "a" "r" expiredDb (some expiredTok) 5000).2 = expiredDb := by
  decide

/-- C3 (amended): a missing refresh cookie is rejected with 401; a cookie
whose token has no non-revoked ledger record is rejected with 403; a
ledger-active token that fails signature or expiry verification is
rejected with 500 (the verification error falls into the catch block); in
every case the database is unchanged and no cookie or token is issued. -/
theorem refresh_failure_modes (as rs : String) (db : Db) (nowMs : Nat) :
    (refreshTokenHandler as rs db none nowMs =
        ({ status := 401, body := "Refresh token missing." }, db))
    ∧ (∀ T : Jwt, findActiveToken db T = none →
        refreshTokenHandler as rs db (some T) nowMs =
          ({ status := 403, body := "Invalid refresh token." }, db))
    ∧ (∀ (T : Jwt) (tr : TokenRecord), findActiveToken db T = some tr →
        jwtVerify T rs nowMs = none →
        refreshTokenHandler as rs db (some T) nowMs =
          ({ status := 500, body := "Server error during token refresh." }, db)) := by
  refine ⟨rfl, ?_, ?_⟩
  · intro T h
    simp [refreshTokenHandler, h]
  · intro T tr h hv
    simp [refreshTokenHandler, h, hv]

/-- C3 witness: all three rejection branches exercised concretely. -/
theorem refresh_failure_modes_witness :
    (refreshTokenHandler "a" "r" sampleDb none 5000 =
        ({ status := 401, body := "Refresh token missing." }, sampleDb))
    ∧ (refreshTokenHandler "a" "r" sampleDb (some expiredTok) 5000 =
        ({ status := 403, body := "Invalid refresh token." }, sampleDb))
    ∧ (refreshTokenHandler "a" "r" expiredDb (some expiredTok) 5000 =
        ({ status := 500, body := "Server error during token refresh." }, expiredDb)) :=
  ⟨(refresh_failure_modes "a" "r" sampleDb 5000).1,
   (refresh_failure_modes "a" "r" sampleDb 5000).2.1 expiredTok (by decide),
   (refresh_failure_modes "a" "r" expiredDb 5000).2.2 expiredTok
     { userId := 1, token := expiredTok, expiresAt := 99999999, revoked := false }
     (by decide) (by decide)⟩

/-- C5: a login with an unknown phone and a login with a known phone but a
password that fails the bcrypt comparison produce literally the same
response — status 401 with the generic message — and leave the database
unchanged. -/
theorem login_enumeration_resistant (as rs : String) (db : Db) (ph pw : String)
    (nowMs : Nat) (hp : ph ≠ "") (hw : pw ≠ "") :
    (findUserByPhone db ph = none →
      loginHandler as rs db (some ph) (some pw) nowMs =
        ({ status := 401, body := "Invalid phone or password." }, db))
    ∧ (∀ u : UserRecord, findUserByPhone db ph = some u →
        bcryptCompare pw u.passwordHash = false →
        loginHandler as rs db (some ph) (some pw) nowMs =
          ({ status := 401, body := "Invalid phone or password." }, db)) := by
  constructor
  · intro h
    simp [loginHandler, truthy, hp, hw, h]
  · intro u h hc
    simp [loginHandler, truthy, hp, hw, h, hc]

/-- C5 witness: unknown phone versus wrong password against the sample
store give identical generic 401 responses. -/
theorem login_enumeration_resistant_witness :
    (loginHandler "a" "r" sampleDb (some "999") (some "whatever1") 0 =
      ({ status := 401, body := "Invalid phone or password." }, sampleDb))
    ∧ (loginHandler "a" "r" sampleDb (some "123") (some "wrongpass") 0 =
      ({ status := 401, body := "Invalid phone or password." }, sampleDb)) :=
  ⟨(login_enumeration_resistant "a" "r" sampleDb "999" "whatever1" 0
      (by decide) (by decide)).1 (by decide),
   (login_enumeration_resistant "a" "r" sampleDb "123" "wrongpass" 0
      (by decide) (by decide)).2 sampleUser (by decide) (by decide)⟩

/-- C6, claimed behavior refuted: a register call whose phone already
belongs to an existing user but whose password is shorter than 8
characters is answered 400 (validation runs before the uniqueness
checks), not the claimed 409. -/
theorem register_duplicate_counterexample :
    (registerHandler sampleDb
      { name := some "m", email := some "a@b.c", phone := some "123",
        password := some "short12", tower := some "t", flat := some "f" }).1.status = 400
    ∧ (registerHandler sampleDb
      { name := some "m", email := some "a@b.c", phone := some "123",
        password := some "short12", tower := some "t", flat := some "f" }).1.status ≠ 409 := by
  decide

/-- C6 (amended): for a register call that passes the input validation
(all fields present, email matching the pattern, password at least 8
characters), a phone collision is answered 409 naming the phone — the
phone check runs first, regardless of the email — and otherwise an email
collision is answered 409 naming the email; in both cases the database is
unchanged, so no user record is created. -/
theorem register_conflict (db : Db) (b : RegisterBody)
    (h1 : truthy b.name = true) (h2 : truthy b.email = true)
    (h3 : truthy b.phone = true) (h4 : truthy b.password = true)
    (h5 : truthy b.tower = true) (h6 : truthy b.flat = true)
    (hm : emailRegexTest (b.email.getD "") = true)
    (hl : 8 ≤ (b.password.getD "").length) :
    (∀ u : UserRecord, findUserByPhone db (b.phone.getD "") = some u →
      registerHandler db b =
        ({ status := 409, body := "User with this phone already exists." }, db))
    ∧ (findUserByPhone db (b.phone.getD "") = none →
       ∀ u : UserRecord, findUserByEmail db (b.email.getD "") = some u →
       registerHandler db b =
        ({ status := 409, body := "User with this email already exists." }, db)) := by
  have hl' : ¬((b.password.getD "").length < 8) := Nat.not_lt.mpr hl
  constructor
  · intro u hu
    simp [registerHandler, h1, h2, h3, h4, h5, h6, hm, hl', hu]
  · intro hp u hu
    simp [registerHandler, h1, h2, h3, h4, h5, h6, hm, hl', hp, hu]

/-- C6 witness: duplicate phone and duplicate email against the sample
store, with valid inputs, each answered by the naming 409. -/
theorem register_conflict_witness :
    (registerHandler sampleDb
      { name := some "m", email := some "a@b.c", phone := some "123",
        password := some "longenough1", tower := some "t", flat := some "f" } =
      ({ status := 409, body := "User with this phone already exists." }, sampleDb))
    ∧ (registerHandler sampleDb
      { name := some "m", email := some "e@x.y", phone := some "124",
        password := some "longenough1", tower := some "t", flat := some "f" } =
      ({ status := 409, body := "User with this email already exists." }, sampleDb)) :=
  ⟨(register_conflict sampleDb
      { name := some "m", email := some "a@b.c", phone := some "123",
        password := some "longenough1", tower := some "t", flat := some "f" }
      (by decide) (by decide) (by decide) (by decide) (by decide) (by decide)
      (by decide) (by decide)).1 sampleUser (by decide),
   (register_conflict sampleDb
      { name := some "m", email := some "e@x.y", phone := some "124",
        password := some "longenough1", tower := some "t", flat := some "f" }
      (by decide) (by decide) (by decide) (by decide) (by decide) (by decide)
      (by decide) (by decide)).2 (by decide) sampleUser (by decide)⟩

theorem setRevokedFirst_idem (l : List TokenRecord) (t : Jwt) :
    setRevokedFirst (setRevokedFirst l t) t = setRevokedFirst l t := by
  induction l with
  | nil => rfl
  | cons r rs ih =>
    by_cases h : r.token == t
    · simp [setRevokedFirst, h]
    · simp [setRevokedFirst, h, ih]

theorem setRevokedFirst_no_match (l : List TokenRecord) (t : Jwt)
    (h : l.find? (fun r => r.token == t) = none) : setRevokedFirst l t = l := by
  induction l with
  | nil => rfl
  | cons r rs ih =>
    by_cases hc : r.token == t
    · simp [List.find?, hc] at h
    · simp [List.find?, hc] at h
      simp [setRevokedFirst, hc]
      exact ih (List.find?_eq_none.mpr (by simpa using h))

/-- C7: logout always answers 200 with the success message and clears the
cookie; running it a second time with the same cookie answers identically
and leaves the ledger exactly as the first call left it; and a logout
whose cookie matches no ledger record succeeds without touching the
ledger. -/
theorem logout_idempotent (db : Db) (cookie : Option Jwt) :
    (logoutHandler db cookie).1 =
      { status := 200, body := "Logged out successfully.", clearCookie := true }
    ∧ (logoutHandler (logoutHandler db cookie).2 cookie).1 =
      { status := 200, body := "Logged out successfully.", clearCookie := true }
    ∧ (logoutHandler (logoutHandler db cookie).2 cookie).2 = (logoutHandler db cookie).2
    ∧ (∀ t : Jwt, cookie = some t →
        db.tokens.find? (fun r => r.token == t) = none →
        (logoutHandler db cookie).2 = db) := by
  refine ⟨rfl, rfl, ?_, ?_⟩
  · cases cookie with
    | none => rfl
    | some t => simp [logoutHandler, setRevokedFirst_idem]
  · intro t ht hn
    subst ht
    simp [logoutHandler, setRevokedFirst_no_match _ _ hn]

/-- C7 witness: double logout with the sample cookie, and a logout with an
unmatched cookie. -/
theorem logout_idempotent_witness :
    (logoutHandler (logoutHandler sampleDb (some sampleTok)).2 (some sampleTok)).2 =
      (logoutHandler sampleDb (some sampleTok)).2
    ∧ (logoutHandler sampleDb (some expiredTok)).2 = sampleDb :=
  ⟨(logout_idempotent sampleDb (some sampleTok)).2.2.1,
   (logout_idempotent sampleDb (some expiredTok)).2.2.2 expiredTok rfl (by decide)⟩

/-- C8: one sweep run keeps exactly the records that are neither revoked
nor past their expiry timestamp — every kept record is unchanged and in
its original position (sublist) and the user collection is untouched —
and the store's TTL backstop keeps exactly the records whose expiry
timestamp has not passed. -/
theorem sweep_exact (db : Db) (nowMs : Nat) :
    (∀ r : TokenRecord, r ∈ (sweepTokens db nowMs).tokens ↔
        r ∈ db.tokens ∧ r.revoked = false ∧ nowMs < r.expiresAt)
    ∧ List.Sublist (sweepTokens db nowMs).tokens db.tokens
    ∧ (sweepTokens db nowMs).users = db.users
    ∧ (∀ r : TokenRecord, r ∈ (ttlExpire db nowMs).tokens ↔
        r ∈ db.tokens ∧ nowMs < r.expiresAt) := by
  refine ⟨?_, List.filter_sublist _, rfl, ?_⟩
  · intro r
    simp [sweepTokens, List.mem_filter, Nat.not_le, and_assoc]
  · intro r
    simp [ttlExpire, List.mem_filter, Nat.not_le]

/-- C4: the access-token gate is a pure function of the Authorization
header's token, the signing secret and the current time — it accepts with
payload `p` exactly when the header carries a token that verifies to `p`
(signature + expiry), and when it rejects it does so with 401 or 403 and
the protected route answers with that very rejection for every database
state, so the outcome is the same whatever the Token Ledger holds. -/
theorem verify_access_pure (secret : String) (h : Option AuthHeader) (nowMs : Nat) :
    (∀ p : TokenPayload, authenticateToken secret h nowMs = Except.ok p ↔
        ∃ t : Jwt, extractBearer h = some t ∧ jwtVerify t secret nowMs = some p)
    ∧ (∀ r : Resp, authenticateToken secret h nowMs = Except.error r →
        (r.status = 401 ∨ r.status = 403) ∧ ∀ db : Db, meHandler secret db h nowMs = r) := by
  constructor
  · intro p
    unfold authenticateToken
    cases hb : extractBearer h with
    | none => simp
    | some t =>
      cases hv : jwtVerify t secret nowMs with
      | none => simp [hv]
      | some q => simp [hv]
  · intro r hr
    have hme : ∀ db : Db, meHandler secret db h nowMs = r := by
      intro db
      simp [meHandler, hr]
    refine ⟨?_, hme⟩
    unfold authenticateToken at hr
    cases hb : extractBearer h with
    | none =>
      rw [hb] at hr
      cases hr
      left; rfl
    | some t =>
      rw [hb] at hr
      cases hv : jwtVerify t secret nowMs with
      | none =>
        simp [hv] at hr
        subst hr
        right; rfl
      | some q => simp [hv] at hr

/-- C4 witness: the gate accepts a fresh token with its payload, and a
request with no header is rejected identically over two different
database states. -/
theorem verify_access_pure_witness :
    (authenticateToken "a" (some { scheme := "Bearer", cred := some (jwtSign { id := 1, phone := "123" } "a" 60 0) }) 500 =
      Except.ok { id := 1, phone := "123" })
    ∧ meHandler "a" sampleDb none 500 = { status := 401, body := "Access token missing." }
    ∧ meHandler "a" expiredDb none 500 = { status := 401, body := "Access token missing." } :=
  ⟨(verify_access_pure "a" (some { scheme := "Bearer", cred := some (jwtSign { id := 1, phone := "123" } "a" 60 0) }) 500).1
      { id := 1, phone := "123" } |>.mpr ⟨jwtSign { id := 1, phone := "123" } "a" 60 0, rfl, by decide⟩,
   ((verify_access_pure "a" none 500).2 { status := 401, body := "Access token missing." } rfl).2 sampleDb,
   ((verify_access_pure "a" none 500).2 { status := 401, body := "Access token missing." } rfl).2 expiredDb⟩

/-- C10: every access token issued by a successful refresh carries a
60-second lifetime while every access token issued by a successful login
carries a 900-second (15-minute) lifetime; both operations hand out
refresh-token cookies with a 7-day signed lifetime and a 7-day max-age. -/
theorem token_lifetimes (as rs : String) (db : Db) (cookie : Option Jwt)
    (ph pw : Option String) (nowMs nowMs2 : Nat) :
    (∀ t : Jwt, (refreshTokenHandler as rs db cookie nowMs).1.accessToken = some t →
        t.lifeSecs = 60)
    ∧ (∀ (c : Jwt) (m : Nat),
        (refreshTokenHandler as rs db cookie nowMs).1.setCookie = some (c, m) →
        c.lifeSecs = sevenDaysSecs ∧ m = sevenDaysMs)
    ∧ (∀ t : Jwt, (loginHandler as rs db ph pw nowMs2).1.accessToken = some t →
        t.lifeSecs = 15 * 60)
    ∧ (∀ (c : Jwt) (m : Nat),
        (loginHandler as rs db ph pw nowMs2).1.setCookie = some (c, m) →
        c.lifeSecs = sevenDaysSecs ∧ m = sevenDaysMs) := by
  refine ⟨?_, ?_, ?_, ?_⟩
  · intro t ht
    unfold refreshTokenHandler at ht
    repeat' split at ht
    all_goals simp_all [jwtSign]
    all_goals (subst ht; rfl)
  · intro c m hc
    unfold refreshTokenHandler at hc
    repeat' split at hc
    all_goals simp_all [jwtSign]
    all_goals (obtain ⟨hc1, hc2⟩ := hc; subst hc1; subst hc2; first | exact ⟨rfl, rfl⟩ | rfl)
  · intro t ht
    unfold loginHandler at ht
    repeat' split at ht
    all_goals simp_all [jwtSign]
    all_goals (subst ht; rfl)
  · intro c m hc
    unfold loginHandler at hc
    repeat' split at hc
    all_goals simp_all [jwtSign]
    all_goals (obtain ⟨hc1, hc2⟩ := hc; subst hc1; subst hc2; first | exact ⟨rfl, rfl⟩ | rfl)

theorem updateOrderFirst_find? (l : List OrderRecord) (oid : Nat)
    (f : OrderRecord → OrderRecord) (o : OrderRecord)
    (hf : ∀ x, (f x).id = x.id)
    (h : l.find? (fun x => x.id == oid) = some o) :
    (updateOrderFirst l oid f).find? (fun x => x.id == oid) = some (f o) := by
  induction l with
  | nil => simp [List.find?] at h
  | cons a as ih =>
    by_cases ha : (a.id == oid) = true
    · rw [@List.find?_cons_of_pos _ (fun x => x.id == oid) a as ha] at h
      cases h
      have ha' : ((f o).id == oid) = true := by
        rw [hf o]; exact ha
      simp only [updateOrderFirst]
      rw [if_pos ha]
      exact @List.find?_cons_of_pos _ (fun x => x.id == oid) (f o) as ha'
    · rw [@List.find?_cons_of_neg _ (fun x => x.id == oid) a as ha] at h
      simp only [updateOrderFirst]
      rw [if_neg ha]
      rw [@List.find?_cons_of_neg _ (fun x => x.id == oid) a (updateOrderFirst as oid f) ha]
      exact ih h

/-- C9: when the verification request is well-formed and the order exists,
a signature mismatch is not left atomic — the handler persists
`paymentStatus = "FAILED"` on the order and then answers 400 — while a
matching signature persists `paymentStatus = "PAID"` and
`orderStatus = "CONFIRMED"` and answers 200. -/
theorem verify_payment_branches (hmac : String → String → String) (ks : String)
    (db : OrderDb) (b : VerifyBody) (oid : Nat) (o : OrderRecord)
    (hid : b.localOrderId = some oid)
    (ho : truthy b.razorpayOrderId = true)
    (hp : truthy b.razorpayPaymentId = true)
    (hs : truthy b.razorpaySignature = true)
    (hfound : db.orders.find? (fun x => x.id == oid) = some o) :
    (hmac ks (b.razorpayOrderId.getD "" ++ "|" ++ b.razorpayPaymentId.getD "") ≠
        b.razorpaySignature.getD "" →
      (verifyPaymentHandler hmac ks db b).1.status = 400
      ∧ (verifyPaymentHandler hmac ks db b).1.body = "Invalid payment signature"
      ∧ (verifyPaymentHandler hmac ks db b).2.orders.find? (fun x => x.id == oid) =
          some { o with paymentStatus := "FAILED" })
    ∧ (hmac ks (b.razorpayOrderId.getD "" ++ "|" ++ b.razorpayPaymentId.getD "") =
        b.razorpaySignature.getD "" →
      (verifyPaymentHandler hmac ks db b).1.status = 200
      ∧ (verifyPaymentHandler hmac ks db b).2.orders.find? (fun x => x.id == oid) =
          some { o with paymentStatus := "PAID", orderStatus := "CONFIRMED" }) := by
  constructor
  · intro hne
    have h1 : (verifyPaymentHandler hmac ks db b).1.status = 400 ∧
        (verifyPaymentHandler hmac ks db b).1.body = "Invalid payment signature" ∧
        (verifyPaymentHandler hmac ks db b).2.orders =
          updateOrderFirst db.orders oid (fun x => { x with paymentStatus := "FAILED" }) := by
      simp [verifyPaymentHandler, hid, ho, hp, hs, hfound, hne]
    refine ⟨h1.1, h1.2.1, ?_⟩
    rw [h1.2.2]
    exact updateOrderFirst_find? db.orders oid _ o (fun x => rfl) hfound
  · intro heq
    have h1 : (verifyPaymentHandler hmac ks db b).1.status = 200 ∧
        (verifyPaymentHandler hmac ks db b).2.orders =
          updateOrderFirst db.orders oid
            (fun x => { x with paymentStatus := "PAID", orderStatus := "CONFIRMED" }) := by
      simp [verifyPaymentHandler, hid, ho, hp, hs, hfound, heq]
    refine ⟨h1.1, ?_⟩
    rw [h1.2]
    exact updateOrderFirst_find? db.orders oid _ o (fun x => rfl) hfound

/-- C9 witness: a concrete order store with a model HMAC, exercising both
the mismatch branch and the match branch. -/
theorem verify_payment_branches_witness :
    ((verifyPaymentHandler (fun s m => s ++ "%" ++ m) "k"
        { orders := [{ id := 7, userId := 1, paymentStatus := "PENDING", orderStatus := "PLACED" }] }
        { localOrderId := some 7, razorpayOrderId := some "o",
          razorpayPaymentId := some "p", razorpaySignature := some "bad" }).1.status = 400
      ∧ (verifyPaymentHandler (fun s m => s ++ "%" ++ m) "k"
        { orders := [{ id := 7, userId := 1, paymentStatus := "PENDING", orderStatus := "PLACED" }] }
        { localOrderId := some 7, razorpayOrderId := some "o",
          razorpayPaymentId := some "p", razorpaySignature := some "bad" }).2.orders.find?
          (fun x => x.id == 7) =
        some { id := 7, userId := 1, paymentStatus := "FAILED", orderStatus := "PLACED" })
    ∧ ((verifyPaymentHandler (fun s m => s ++ "%" ++ m) "k"
        { orders := [{ id := 7, userId := 1, paymentStatus := "PENDING", orderStatus := "PLACED" }] }
        { localOrderId := some 7, razorpayOrderId := some "o",
          razorpayPaymentId := some "p", razorpaySignature := some "k%o|p" }).1.status = 200
      ∧ (verifyPaymentHandler (fun s m => s ++ "%" ++ m) "k"
        { orders := [{ id := 7, userId := 1, paymentStatus := "PENDING", orderStatus := "PLACED" }] }
        { localOrderId := some 7, razorpayOrderId := some "o",
          razorpayPaymentId := some "p", razorpaySignature := some "k%o|p" }).2.orders.find?
          (fun x => x.id == 7) =
        some { id := 7, userId := 1, paymentStatus := "PAID", orderStatus := "CONFIRMED" }) := by
  constructor
  · have h := (verify_payment_branches (fun s m => s ++ "%" ++ m) "k"
      { orders := [{ id := 7, userId := 1, paymentStatus := "PENDING", orderStatus := "PLACED" }] }
      { localOrderId := some 7, razorpayOrderId := some "o",
        razorpayPaymentId := some "p", razorpaySignature := some "bad" }
      7 { id := 7, userId := 1, paymentStatus := "PENDING", orderStatus := "PLACED" }
      rfl (by decide) (by decide) (by decide) (by decide)).1 (by decide)
    exact ⟨h.1, h.2.2⟩
  · have h := (verify_payment_branches (fun s m => s ++ "%" ++ m) "k"
      { orders := [{ id := 7, userId := 1, paymentStatus := "PENDING", orderStatus := "PLACED" }] }
      { localOrderId := some 7, razorpayOrderId := some "o",
        razorpayPaymentId := some "p", razorpaySignature := some "k%o|p" }
      7 { id := 7, userId := 1, paymentStatus := "PENDING", orderStatus := "PLACED" }
      rfl (by decide) (by decide) (by decide) (by decide)).2 (by decide)
    exact h

theorem refresh_reject_invalid (as rs : String) (db : Db) (T : Jwt) (nowMs : Nat)
    (h : findActiveToken db T = none) :
    refreshTokenHandler as rs db (some T) nowMs =
      ({ status := 403, body := "Invalid refresh token." }, db) := by
  simp [refreshTokenHandler, h]

/-- A ledger whose stored refresh token was signed in second 5; replaying
it during second 5 makes the rotation mint an identical token. -/
def replayTok : Jwt :=
  { payload := { id := 1, phone := "123" }, secret := "r", iat := 5, lifeSecs := sevenDaysSecs }

def replayDb : Db :=
  { users := [], nextUserId := 0,
    tokens := [{ userId := 1, token := replayTok, expiresAt := 10000000, revoked := false }] }

/-- C1, claimed behavior refuted: when the refresh runs in the same second
in which T was signed, the rotation re-signs an identical token, so a
second refresh presenting T finds the freshly persisted non-revoked record
and succeeds with 200 — minting yet another record — instead of failing
with an authentication error. -/
theorem rotation_replay_counterexample :
    ledgerWF replayDb = true
    ∧ (refreshTokenHandler "a" "r" replayDb (some replayTok) 5000).1.status = 200
    ∧ (refreshTokenHandler "a" "r"
        (refreshTokenHandler "a" "r" replayDb (some replayTok) 5000).2
        (some replayTok) 5000).1.status = 200
    ∧ (refreshTokenHandler "a" "r"
        (refreshTokenHandler "a" "r" replayDb (some replayTok) 5000).2
        (some replayTok) 5000).1.status ≠ 403
    ∧ (refreshTokenHandler "a" "r"
        (refreshTokenHandler "a" "r" replayDb (some replayTok) 5000).2
        (some replayTok) 5000).2.tokens.length =
      (refreshTokenHandler "a" "r" replayDb (some replayTok) 5000).2.tokens.length + 1 := by
  decide

/-- C1 (amended): in a well-formed ledger, after a successful refresh with
token T whose newly set cookie token differs from T (the only failure of
this side condition is a refresh re-signing T's payload in the very second
T was issued), a second refresh presenting T is rejected with 403 by the
non-revoked-record lookup, leaves the ledger unchanged, and issues no
cookie and no token. -/
theorem rotation_invalidation (as rs : String) (db : Db) (T c : Jwt)
    (nowMs nowMs2 maxAge : Nat)
    (hwf : ledgerWF db = true)
    (h200 : (refreshTokenHandler as rs db (some T) nowMs).1.status = 200)
    (hck : (refreshTokenHandler as rs db (some T) nowMs).1.setCookie = some (c, maxAge))
    (hne : c ≠ T) :
    refreshTokenHandler as rs (refreshTokenHandler as rs db (some T) nowMs).2 (some T) nowMs2 =
      ({ status := 403, body := "Invalid refresh token." },
       (refreshTokenHandler as rs db (some T) nowMs).2) := by
  cases hfind : findActiveToken db T with
  | none => simp [refreshTokenHandler, hfind] at h200
  | some tr =>
    cases hv : jwtVerify T rs nowMs with
    | none => simp [refreshTokenHandler, hfind, hv] at h200
    | some p =>
      have hpT : p = T.payload := by
        unfold jwtVerify at hv
        by_cases hcond : (T.secret = rs ∧ nowMs / 1000 < T.iat + T.lifeSecs)
        · rw [if_pos hcond] at hv
          exact (Option.some.inj hv).symm
        · rw [if_neg hcond] at hv
          cases hv
      have hdb1 : (refreshTokenHandler as rs db (some T) nowMs).2 =
          { db with tokens := (db.tokens.map (fun r =>
              if r.userId == p.id && r.revoked == false then { r with revoked := true } else r)) ++
              [{ userId := p.id,
                 token := jwtSign { id := p.id, phone := p.phone } rs sevenDaysSecs nowMs,
                 expiresAt := nowMs + sevenDaysMs, revoked := false }] } := by
        simp [refreshTokenHandler, hfind, hv]
      have hc' : c = jwtSign { id := p.id, phone := p.phone } rs sevenDaysSecs nowMs := by
        simp [refreshTokenHandler, hfind, hv] at hck
        exact hck.1.symm
      have hnone : findActiveToken
          { db with tokens := (db.tokens.map (fun r =>
              if r.userId == p.id && r.revoked == false then { r with revoked := true } else r)) ++
              [{ userId := p.id,
                 token := jwtSign { id := p.id, phone := p.phone } rs sevenDaysSecs nowMs,
                 expiresAt := nowMs + sevenDaysMs, revoked := false }] } T = none := by
        unfold findActiveToken
        rw [List.find?_eq_none]
        intro x hx
        simp only [List.mem_append, List.mem_map, List.mem_singleton] at hx
        rcases hx with ⟨r, hr, rfl⟩ | rfl
        · by_cases hcnd : (r.userId == p.id && r.revoked == false) = true
          · rw [if_pos hcnd]
            simp
          · rw [if_neg hcnd]
            intro hpred
            simp only [Bool.and_eq_true, beq_iff_eq] at hpred
            obtain ⟨htok, hrev⟩ := hpred
            have hwfr : r.userId = r.token.payload.id := by
              have hall := (List.all_eq_true.mp hwf) r hr
              simpa using hall
            apply hcnd
            simp only [Bool.and_eq_true, beq_iff_eq]
            exact ⟨by rw [hwfr, htok, ← hpT], hrev⟩
        · intro hpred
          simp only [Bool.and_eq_true, beq_iff_eq] at hpred
          exact hne (hc' ▸ hpred.1)
      rw [hdb1]
      exact refresh_reject_invalid as rs _ T nowMs2 hnone

/-- A ledger whose stored refresh token was signed in second 4, refreshed
during second 5: the rotated cookie differs from the presented token. -/
def rotTok : Jwt :=
  { payload := { id := 1, phone := "123" }, secret := "r", iat := 4, lifeSecs := sevenDaysSecs }

def rotDb : Db :=
  { users := [], nextUserId := 0,
    tokens := [{ userId := 1, token := rotTok, expiresAt := 10000000, revoked := false }] }

/-- C1 witness: a concrete rotation at a later second, whose replay is
rejected with 403 and changes nothing. -/
theorem rotation_invalidation_witness :
    refreshTokenHandler "a" "r"
        (refreshTokenHandler "a" "r" rotDb (some rotTok) 5000).2 (some rotTok) 6000 =
      ({ status := 403, body := "Invalid refresh token." },
       (refreshTokenHandler "a" "r" rotDb (some rotTok) 5000).2) :=
  rotation_invalidation "a" "r" rotDb rotTok
    (jwtSign { id := 1, phone := "123" } "r" sevenDaysSecs 5000) 5000 6000 sevenDaysMs
    (by decide) (by decide) (by decide) (by decide)

theorem countActive_rotate_append (db : Db) (uid : Nat) (nr : TokenRecord)
    (h1 : nr.userId = uid) (h2 : nr.revoked = false) :
    countActive { db with tokens := (db.tokens.map (fun r =>
        if r.userId == uid && r.revoked == false then { r with revoked := true } else r)) ++
        [nr] } uid = 1 := by
  unfold countActive
  simp only [List.filter_append]
  have hmap : (db.tokens.map (fun r =>
      if r.userId == uid && r.revoked == false then { r with revoked := true } else r)).filter
        (fun r => r.userId == uid && r.revoked == false) = [] := by
    rw [List.filter_eq_nil_iff]
    intro a ha
    rcases List.mem_map.mp ha with ⟨r, hr, rfl⟩
    by_cases hcnd : (r.userId == uid && r.revoked == false) = true
    · rw [if_pos hcnd]
      simp
    · rw [if_neg hcnd]
      simpa using hcnd
  rw [hmap]
  simp [List.filter, h1, h2]

theorem refreshChain_active (as rs : String) (uid : Nat) (times : List Nat) :
    ∀ (db : Db) (c : Jwt) (dbF : Db) (cF : Jwt),
      c.payload.id = uid → countActive db uid = 1 →
      refreshChain as rs times db c = some (dbF, cF) →
      countActive dbF uid = 1 ∧ cF.payload.id = uid := by
  induction times with
  | nil =>
    intro db c dbF cF hc h1 hch
    simp [refreshChain] at hch
    obtain ⟨hdb, hcf⟩ := hch
    subst hdb
    subst hcf
    exact ⟨h1, hc⟩
  | cons t ts ih =>
    intro db c dbF cF hc h1 hch
    simp only [refreshChain] at hch
    cases hfind : findActiveToken db c with
    | none => simp [refreshTokenHandler, hfind] at hch
    | some tr =>
      cases hv : jwtVerify c rs t with
      | none => simp [refreshTokenHandler, hfind, hv] at hch
      | some p =>
        have hpc : p = c.payload := by
          unfold jwtVerify at hv
          by_cases hcond : (c.secret = rs ∧ t / 1000 < c.iat + c.lifeSecs)
          · rw [if_pos hcond] at hv
            exact (Option.some.inj hv).symm
          · rw [if_neg hcond] at hv
            cases hv
        have hpid : p.id = uid := by rw [hpc, hc]
        simp only [refreshTokenHandler, hfind, hv] at hch
        rw [if_pos (by rfl)] at hch
        refine ih _ _ dbF cF ?_ ?_ hch
        · simp [jwtSign, hpid]
        · rw [hpid]
          exact countActive_rotate_append db uid
            { userId := uid,
              token := jwtSign { id := uid, phone := p.phone } rs sevenDaysSecs t,
              expiresAt := t + sevenDaysMs, revoked := false } rfl rfl

/-- C2: after one successful login (into a ledger holding no non-revoked
record for that user) followed by any number of sequential successful
refreshes each presenting the previously issued cookie, exactly one
non-revoked Token Ledger record exists for that user — each refresh first
revokes every non-revoked token of the user and then persists exactly one
new non-revoked record. -/
theorem single_active_lineage (as rs : String) (db : Db) (ph pw : String)
    (u : UserRecord) (t0 : Nat) (times : List Nat) (c : Jwt) (m : Nat)
    (dbF : Db) (cF : Jwt)
    (hp : ph ≠ "") (hw : pw ≠ "")
    (hfind : findUserByPhone db ph = some u)
    (hpw : bcryptCompare pw u.passwordHash = true)
    (has : as ≠ "") (hrs : rs ≠ "")
    (h0 : countActive db u.id = 0)
    (hck : (loginHandler as rs db (some ph) (some pw) t0).1.setCookie = some (c, m))
    (hchain : refreshChain as rs times (loginHandler as rs db (some ph) (some pw) t0).2 c =
      some (dbF, cF)) :
    countActive dbF u.id = 1 := by
  have hdb1 : (loginHandler as rs db (some ph) (some pw) t0).2 =
      { db with tokens := db.tokens ++
          [{ userId := u.id,
             token := jwtSign { id := u.id, phone := u.phone } rs sevenDaysSecs t0,
             expiresAt := t0 + sevenDaysMs, revoked := false }] } := by
    simp [loginHandler, truthy, hp, hw, hfind, hpw, has, hrs]
  have hc' : c = jwtSign { id := u.id, phone := u.phone } rs sevenDaysSecs t0 := by
    simp [loginHandler, truthy, hp, hw, hfind, hpw, has, hrs] at hck
    exact hck.1.symm
  have h1 : countActive (loginHandler as rs db (some ph) (some pw) t0).2 u.id = 1 := by
    rw [hdb1]
    unfold countActive at h0 ⊢
    rw [List.filter_append]
    rw [List.length_eq_zero] at h0
    rw [h0]
    simp [List.filter]
  exact (refreshChain_active as rs u.id times _ c dbF cF (by subst hc'; rfl) h1 hchain).1

def chainDb0 : Db := { users := [sampleUser], nextUserId := 2, tokens := [] }

def chainCookie : Jwt := jwtSign { id := 1, phone := "123" } "r" sevenDaysSecs 0

def chainRun : Option (Db × Jwt) :=
  refreshChain "a" "r" [1000, 2000]
    (loginHandler "a" "r" chainDb0 (some "123") (some "password1") 0).2 chainCookie

def chainDbF : Db :=
  (chainRun.getD ({ users := [], nextUserId := 0, tokens := [] }, chainCookie)).1

def chainCF : Jwt :=
  (chainRun.getD ({ users := [], nextUserId := 0, tokens := [] }, chainCookie)).2

/-- C2 witness: login followed by two sequential refreshes leaves exactly
one non-revoked record for the user. -/
theorem single_active_lineage_witness : countActive chainDbF 1 = 1 :=
  single_active_lineage "a" "r" chainDb0 "123" "password1" sampleUser 0 [1000, 2000]
    chainCookie sevenDaysMs chainDbF chainCF
    (by decide) (by decide) (by decide) (by decide) (by decide) (by decide) (by decide)
    (by decide) (by decide)

/-- Ledger well-formedness is an invariant: login only appends a record
whose `userId` is the id embedded in the token it stores. -/
theorem ledgerWF_preserved_login (as rs : String) (db : Db) (ph pw : Option String)
    (nowMs : Nat) (h : ledgerWF db = true) :
    ledgerWF (loginHandler as rs db ph pw nowMs).2 = true := by
  unfold loginHandler
  repeat' split
  all_goals simp_all [ledgerWF, jwtSign, List.all_append]

/-- Ledger well-formedness is an invariant: the rotation flips `revoked`
flags without touching `userId` or `token`, and appends a record whose
`userId` is the id embedded in the token it stores. -/
theorem ledgerWF_preserved_refresh (as rs : String) (db : Db) (cookie : Option Jwt)
    (nowMs : Nat) (h : ledgerWF db = true) :
    ledgerWF (refreshTokenHandler as rs db cookie nowMs).2 = true := by
  cases cookie with
  | none => exact h
  | some T =>
    cases hfind : findActiveToken db T with
    | none =>
      have hid : (refreshTokenHandler as rs db (some T) nowMs).2 = db := by
        simp [refreshTokenHandler, hfind]
      rw [hid]; exact h
    | some tr =>
      cases hv : jwtVerify T rs nowMs with
      | none =>
        have hid : (refreshTokenHandler as rs db (some T) nowMs).2 = db := by
          simp [refreshTokenHandler, hfind, hv]
        rw [hid]; exact h
      | some p =>
        have hdb : (refreshTokenHandler as rs db (some T) nowMs).2 =
            { db with tokens := (db.tokens.map (fun r =>
                if r.userId == p.id && r.revoked == false then { r with revoked := true }
                else r)) ++
                [{ userId := p.id,
                   token := jwtSign { id := p.id, phone := p.phone } rs sevenDaysSecs nowMs,
                   expiresAt := nowMs + sevenDaysMs, revoked := false }] } := by
          simp [refreshTokenHandler, hfind, hv]
        rw [hdb]
        unfold ledgerWF at h ⊢
        rw [List.all_append, Bool.and_eq_true]
        refine ⟨?_, by simp [jwtSign]⟩
        rw [List.all_map]
        rw [List.all_eq_true] at h ⊢
        intro r hr
        have hwr := h r hr
        by_cases hcnd : (r.userId == p.id && r.revoked == false) = true
        · simp only [Function.comp_apply]
          rw [if_pos hcnd]
          simpa using hwr
        · simp only [Function.comp_apply]
          rw [if_neg hcnd]
          exact hwr

/-- Ledger well-formedness is an invariant: logout only flips a `revoked`
flag. -/
theorem ledgerWF_preserved_logout (db : Db) (cookie : Option Jwt)
    (h : ledgerWF db = true) :
    ledgerWF (logoutHandler db cookie).2 = true := by
  cases cookie with
  | none => exact h
  | some t =>
    show ledgerWF { db with tokens := setRevokedFirst db.tokens t } = true
    unfold ledgerWF at h ⊢
    rw [List.all_eq_true] at h ⊢
    have : ∀ l : List TokenRecord, (∀ r ∈ l, (r.userId == r.token.payload.id) = true) →
        ∀ r ∈ setRevokedFirst l t, (r.userId == r.token.payload.id) = true := by
      intro l
      induction l with
      | nil => intro _ r hr; cases hr
      | cons a as ih =>
        intro hl r hr
        by_cases ha : (a.token == t) = true
        · rw [setRevokedFirst] at hr
          rw [if_pos ha] at hr
          rcases List.mem_cons.mp hr with hr1 | hr2
          · subst hr1
            simpa using hl a (List.mem_cons_self a as)
          · exact hl r (List.mem_cons_of_mem a hr2)
        · rw [setRevokedFirst] at hr
          rw [if_neg ha] at hr
          rcases List.mem_cons.mp hr with hr1 | hr2
          · subst hr1
            exact hl r (List.mem_cons_self r as)
          · exact ih (fun x hx => hl x (List.mem_cons_of_mem a hx)) r hr2
    exact this db.tokens h

def sampleRec : TokenRecord :=
  { userId := 1, token := sampleTok, expiresAt := 10000000, revoked := false }

/-- C8 witness: the membership characterisations at a concrete store. -/
theorem sweep_exact_witness :
    (sampleRec ∈ (sweepTokens sampleDb 5).tokens ↔
      sampleRec ∈ sampleDb.tokens ∧ sampleRec.revoked = false ∧ 5 < sampleRec.expiresAt)
    ∧ (sampleRec ∈ (ttlExpire sampleDb 5).tokens ↔
      sampleRec ∈ sampleDb.tokens ∧ 5 < sampleRec.expiresAt) :=
  ⟨(sweep_exact sampleDb 5).1 sampleRec, (sweep_exact sampleDb 5).2.2.2 sampleRec⟩

/-- C10 witness: concrete successful refresh and login, with the issued
token lifetimes and cookie max-age read off through the theorem. -/
theorem token_lifetimes_witness :
    (jwtSign { id := 1, phone := "123" } "a" 60 6000).lifeSecs = 60
    ∧ (jwtSign { id := 1, phone := "123" } "r" sevenDaysSecs 6000).lifeSecs = sevenDaysSecs
    ∧ (jwtSign { id := 1, phone := "123" } "a" (15 * 60) 0).lifeSecs = 15 * 60
    ∧ (jwtSign { id := 1, phone := "123" } "r" sevenDaysSecs 0).lifeSecs = sevenDaysSecs :=
  ⟨(token_lifetimes "a" "r" sampleDb (some sampleTok) (some "123") (some "password1") 6000 0).1
      (jwtSign { id := 1, phone := "123" } "a" 60 6000) (by decide),
   ((token_lifetimes "a" "r" sampleDb (some sampleTok) (some "123") (some "password1") 6000 0).2.1
      (jwtSign { id := 1, phone := "123" } "r" sevenDaysSecs 6000) sevenDaysMs (by decide)).1,
   (token_lifetimes "a" "r" sampleDb (some sampleTok) (some "123") (some "password1") 6000 0).2.2.1
      (jwtSign { id := 1, phone := "123" } "a" (15 * 60) 0) (by decide),
   ((token_lifetimes "a" "r" sampleDb (some sampleTok) (some "123") (some "password1") 6000 0).2.2.2
      (jwtSign { id := 1, phone := "123" } "r" sevenDaysSecs 0) sevenDaysMs (by decide)).1⟩
